import Mathlib

/-!
Formal model of the postgres-large-object TypeScript library
(src/src/LargeObject.ts, src/src/LargeObjectManager.ts, src/src/ReadStream.ts,
src/src/index.ts which also contains WriteStream).

The server-side state of one opened large-object descriptor is modelled as the
byte content of the object together with the current seek position.  Bytes are
modelled as natural numbers (the byte values themselves never matter).  The SQL
functions loread / lowrite / lo_lseek64 / lo_tell64 invoked by the library are
modelled by their PostgreSQL semantics as functions on this state.  Thrown
JavaScript values distinguish a bare thrown string (ReadStream/WriteStream throw
the string literal "Illegal Argument") from an Error object
(LargeObjectManager throws Error objects and the remote engine reports errors
as rejected promises carrying Error objects).
-/

/-- Server-side state of one open large-object descriptor: the object's byte
content and the current position.  The position may point past the end of the
content (lo_lseek64 allows seeking beyond the end). -/
structure LoState where
  content : List Nat
  pos : Nat
deriving DecidableEq, Repr

/-- A thrown JavaScript value: either a bare string (thrown by the stream
adapters) or an Error object carrying a message. -/
inductive Thrown where
  | thrownString (s : String)
  | errorObject (message : String)
deriving DecidableEq, Repr

/-- PostgreSQL loread(fd, len): returns up to len bytes starting at the current
position and advances the position by the number of bytes actually returned.
Reading at or past the end returns fewer bytes (possibly none). -/
def loread (st : LoState) (len : Nat) : List Nat × LoState :=
  let data := (st.content.drop st.pos).take len
  (data, { st with pos := st.pos + data.length })

/-- PostgreSQL lowrite(fd, buf): overwrites bytes at the current position,
zero-filling any gap when the position is past the end, and advances the
position by the length of buf. -/
def lowrite (st : LoState) (buf : List Nat) : LoState :=
  let padded := st.content ++ List.replicate (st.pos - st.content.length) 0
  { content := padded.take st.pos ++ buf ++ padded.drop (st.pos + buf.length),
    pos := st.pos + buf.length }

/-- PostgreSQL lo_tell64(fd): the current position, without side effects. -/
def lo_tell64 (st : LoState) : Nat :=
  st.pos

/-- PostgreSQL lo_lseek64(fd, offset, whence): sets the position relative to
the start (0), the current position (1) or the end (2) and returns the new
absolute position; errors on an invalid whence or a negative resulting
position.  Remote errors surface as rejected promises carrying Error
objects. -/
def lo_lseek64 (st : LoState) (offset : Int) (whence : Nat) :
    Except Thrown (Int × LoState) :=
  if whence > 2 then .error (.errorObject "invalid whence") else
  let base : Int := if whence = 0 then 0
    else if whence = 1 then (st.pos : Int) else (st.content.length : Int)
  let newPos : Int := base + offset
  if newPos < 0 then .error (.errorObject "invalid seek offset")
  else .ok (newPos, { st with pos := newPos.toNat })

/-- Fuel-bounded base-2 logarithm, used to compute the bit length of a value.
With fuel 64 it is exact for every value below 2 ^ 64, which covers every
PostgreSQL int8 position or size (they are below 2 ^ 63). -/
def log2F : Nat → Nat → Nat
  | 0, _ => 0
  | fuel + 1, n => if n ≤ 1 then 0 else log2F fuel (n / 2) + 1

/-- Rounding of a nonnegative integer to the nearest IEEE-754 double (round
half to even), the coercion performed by the JavaScript unary plus that
LargeObject.tellAsync and LargeObject.sizeAsync apply to the int8 value the
driver returns as a string.  Integers of at most 53 significant bits are
exactly representable; beyond that the value is rounded to a multiple of
2 ^ (bits - 53). -/
def fl64 (n : Nat) : Nat :=
  if n = 0 then 0 else
  let b := log2F 64 n + 1
  if b ≤ 53 then n
  else
    let e := b - 53
    let q := n / 2 ^ e
    let r := n % 2 ^ e
    let half := 2 ^ (e - 1)
    let q1 := if half < r ∨ (r = half ∧ q % 2 = 1) then q + 1 else q
    q1 * 2 ^ e

/-- Access-mode bitmask from LargeObjectManager.ts lines 7-11 (enum MODE). -/
def MODE.WRITE : Nat := 0x00020000

/-- Access-mode bitmask from LargeObjectManager.ts lines 7-11 (enum MODE). -/
def MODE.READ : Nat := 0x00040000

/-- Access-mode bitmask from LargeObjectManager.ts lines 7-11 (enum MODE):
the source writes the literal 0x00020000 | 0x00040000. -/
def MODE.READWRITE : Nat := Nat.lor 0x00020000 0x00040000

/-- Seek whence code from LargeObject.ts lines 6-10 (enum SEEK_REF). -/
def SEEK_REF.SEEK_SET : Nat := 0

/-- Seek whence code from LargeObject.ts lines 6-10 (enum SEEK_REF). -/
def SEEK_REF.SEEK_CUR : Nat := 1

/-- Seek whence code from LargeObject.ts lines 6-10 (enum SEEK_REF). -/
def SEEK_REF.SEEK_END : Nat := 2

/-- Static alias LargeObject.SEEK_SET (LargeObject.ts line 22). -/
def LargeObject.SEEK_SET : Nat := SEEK_REF.SEEK_SET

/-- Static alias LargeObject.SEEK_CUR (LargeObject.ts line 27). -/
def LargeObject.SEEK_CUR : Nat := SEEK_REF.SEEK_CUR

/-- Static alias LargeObject.SEEK_END (LargeObject.ts line 32). -/
def LargeObject.SEEK_END : Nat := SEEK_REF.SEEK_END

/-- LargeObject.readAsync (LargeObject.ts lines 68-71): one loread call. -/
def LargeObject.readAsync (st : LoState) (length : Nat) : List Nat × LoState :=
  loread st length

/-- LargeObject.writeAsync (LargeObject.ts lines 89-91): one lowrite call. -/
def LargeObject.writeAsync (st : LoState) (buffer : List Nat) : LoState :=
  lowrite st buffer

/-- LargeObject.seekAsync (LargeObject.ts lines 108-111): one lo_lseek64 call;
the returned location is passed through without any numeric coercion. -/
def LargeObject.seekAsync (st : LoState) (position : Int) (ref : Nat) :
    Except Thrown (Int × LoState) :=
  lo_lseek64 st position ref

/-- LargeObject.tellAsync (LargeObject.ts lines 129-132): one lo_tell64 call;
the source returns the unary-plus coercion of the driver value, modelled by
fl64. -/
def LargeObject.tellAsync (st : LoState) : Nat :=
  fl64 (lo_tell64 st)

/-- LargeObject.sizeAsync (LargeObject.ts lines 147-154): a single SQL
statement whose nested subqueries evaluate innermost first: save the current
location with lo_tell64, seek to the end with lo_lseek64(fd, 0, 2) obtaining
the size, then restore the saved location with lo_lseek64(fd, location, 0);
the source returns the unary-plus coercion of the size column. -/
def LargeObject.sizeAsync (st : LoState) : Except Thrown (Nat × LoState) :=
  let location := lo_tell64 st
  match lo_lseek64 st 0 2 with
  | .error t => .error t
  | .ok (size, st1) =>
    match lo_lseek64 st1 (location : Int) 0 with
    | .error t => .error t
    | .ok (_, st2) => .ok (fl64 size.toNat, st2)

theorem log2F_le (fuel : Nat) : ∀ n k, n < 2 ^ (k + 1) → k ≤ fuel → log2F fuel n ≤ k := by
  induction fuel with
  | zero => intro n k _ _; simp [log2F]
  | succ fuel ih =>
    intro n k hn hk
    unfold log2F
    split
    · exact Nat.zero_le k
    · rename_i h
      have hk1 : 1 ≤ k := by
        by_contra hc
        push_neg at hc
        interval_cases k
        omega
      have hdiv : n / 2 < 2 ^ k := by
        have : n < 2 ^ k * 2 := by
          rw [← pow_succ]
          omega
        omega
      have := ih (n / 2) (k - 1) (by
        have : 2 ^ (k - 1 + 1) = 2 ^ k := by congr 1; omega
        omega) (by omega)
      omega

/-- Every integer of at most 53 significant bits is exactly representable as an
IEEE-754 double, so the unary-plus coercion is the identity up to 2 ^ 53. -/
theorem fl64_exact (n : Nat) (h : n ≤ 2 ^ 53) : fl64 n = n := by
  rcases Nat.lt_or_ge n (2 ^ 53) with hlt | hge
  · rcases Nat.eq_zero_or_pos n with h0 | hpos
    · subst h0; rfl
    · have hb : log2F 64 n ≤ 52 := log2F_le 64 n 52 (by simpa using hlt) (by omega)
      unfold fl64
      rw [if_neg (by omega)]
      rw [if_pos (by omega)]
  · have hn : n = 2 ^ 53 := by omega
    subst hn; decide

theorem lo_lseek64_end_zero (st : LoState) :
    lo_lseek64 st 0 2 = .ok (st.content.length, ⟨st.content, st.content.length⟩) := by
  unfold lo_lseek64
  rw [if_neg (by omega), if_neg (by omega), if_neg (by omega), if_neg (by omega)]
  simp

theorem lo_lseek64_set (st : LoState) (p : Nat) :
    lo_lseek64 st (p : Int) 0 = .ok (p, ⟨st.content, p⟩) := by
  unfold lo_lseek64
  rw [if_neg (by omega), if_pos rfl, if_neg (by omega)]
  simp

theorem sizeAsync_eq (st : LoState) :
    LargeObject.sizeAsync st = .ok (fl64 st.content.length, st) := by
  unfold LargeObject.sizeAsync
  simp only [lo_lseek64_end_zero, lo_lseek64_set, lo_tell64, Int.toNat_natCast]

/-- C9: the exported mode constants satisfy WRITE = 0x00020000,
READ = 0x00040000 and READWRITE = WRITE | READ, and the seek whence codes
satisfy SEEK_SET = 0, SEEK_CUR = 1 and SEEK_END = 2 (also through the static
aliases on LargeObject), matching the PostgreSQL INV_WRITE / INV_READ flag
encoding bit for bit. -/
theorem mode_and_whence_constants :
    MODE.WRITE = 0x00020000 ∧ MODE.READ = 0x00040000
    ∧ MODE.READWRITE = Nat.lor MODE.WRITE MODE.READ
    ∧ SEEK_REF.SEEK_SET = 0 ∧ SEEK_REF.SEEK_CUR = 1 ∧ SEEK_REF.SEEK_END = 2
    ∧ LargeObject.SEEK_SET = 0 ∧ LargeObject.SEEK_CUR = 1
    ∧ LargeObject.SEEK_END = 2 := by
  decide

/-- C2: for every open handle state, sizeAsync returns the total length of the
object and hands back exactly the input state, so the position is unchanged
and a tell() issued immediately after size() returns the same value a tell()
issued immediately before it would have; concretely, after reading 2 bytes
from the start of a 4-byte object, size() followed by tell() yields 2. -/
theorem sizeAsync_preserves_position (st : LoState) :
    LargeObject.sizeAsync st = .ok (fl64 st.content.length, st)
    ∧ (LargeObject.sizeAsync st).map (fun p => LargeObject.tellAsync p.2)
        = .ok (LargeObject.tellAsync st)
    ∧ (LargeObject.sizeAsync (LargeObject.readAsync ⟨[10, 20, 30, 40], 0⟩ 2).2).map
        (fun p => LargeObject.tellAsync p.2) = .ok 2 := by
  refine ⟨sizeAsync_eq st, ?_, by rfl⟩
  rw [sizeAsync_eq]
  rfl

/-- C8 counterexample: the values returned by tellAsync pass through the
JavaScript unary-plus coercion, a float64 rounding, so the representation is
floating-point-backed and not integer-safe: at position 2 ^ 53 + 1 the
returned value is rounded (to 2 ^ 53). -/
theorem tell_rounds_beyond_2_53 :
    LargeObject.tellAsync ⟨[], 2 ^ 53 + 1⟩ ≠ 2 ^ 53 + 1 := by
  decide

/-- C8 amended: positions and sizes returned by tellAsync and sizeAsync pass
through a float64-backed coercion that is exact for every value up to 2 ^ 53
(and seekAsync passes the driver value through uncoerced); beyond 2 ^ 53 the
coercion can round, as the source's own comments warn. -/
theorem positions_exact_up_to_2_53 (st : LoState)
    (hpos : st.pos ≤ 2 ^ 53) (hlen : st.content.length ≤ 2 ^ 53) :
    LargeObject.tellAsync st = st.pos
    ∧ LargeObject.sizeAsync st = .ok (st.content.length, st) := by
  constructor
  · unfold LargeObject.tellAsync lo_tell64
    exact fl64_exact _ hpos
  · rw [sizeAsync_eq, fl64_exact _ hlen]

theorem positions_exact_up_to_2_53_witness :
    LargeObject.tellAsync ⟨[5, 6, 7], 2⟩ = 2
    ∧ LargeObject.sizeAsync ⟨[5, 6, 7], 2⟩ = .ok (3, ⟨[5, 6, 7], 2⟩) :=
  positions_exact_up_to_2_53 ⟨[5, 6, 7], 2⟩ (by decide) (by decide)

/-- One action performed on the Node stream machinery by the ReadStream._read
callback: pushing a data buffer, pushing null (the end-of-stream signal), or
emitting an error event. -/
inductive StreamAction where
  | push (data : List Nat)
  | pushNull
  | emitError (e : String)
deriving DecidableEq, Repr

/-- Result of one invocation of ReadStream._read: the value thrown
synchronously (if any), the stream actions performed by the read callback,
the lengths of the read calls issued on the underlying LargeObject, and the
handle state afterwards. -/
structure PullResult where
  thrown : Option Thrown
  acts : List StreamAction
  handleReads : List Nat
  lo : LoState
deriving DecidableEq, Repr

/-- ReadStream._read (ReadStream.ts lines 14-30): a requested length of at
most 0 throws the bare string "Illegal Argument" before touching the handle;
otherwise exactly one read(length) is issued and its outcome is delivered to
the callback: on error the callback emits the error event and returns; on
success it pushes the data and additionally pushes null when the data is
missing or shorter than requested (an empty Buffer is truthy in JavaScript,
so the !data test fires only for a missing buffer, which a successful read
never produces). -/
def ReadStream_read (lo : LoState) (length : Int) (outcome : Except String Unit) :
    PullResult :=
  if length ≤ 0 then ⟨some (.thrownString "Illegal Argument"), [], [], lo⟩
  else
    match outcome with
    | .error e => ⟨none, [.emitError e], [length.toNat], lo⟩
    | .ok _ =>
      let (data, lo1) := LargeObject.readAsync lo length.toNat
      ⟨none, [.push data] ++ (if (data.length : Int) < length then [.pushNull] else []),
       [length.toNat], lo1⟩

/-- Observable state of a ReadStream driven by the Node Readable machinery:
the handle state, whether a _read call is outstanding (reading), whether
push(null) has ended the stream, the data chunks delivered to the consumer,
the error events seen, the values thrown synchronously by _read, and the
lengths of the reads issued on the handle. -/
structure RSState where
  lo : LoState
  reading : Bool
  ended : Bool
  chunks : List (List Nat)
  errors : List String
  thrown : List Thrown
  reads : List Nat
deriving DecidableEq, Repr

/-- Application of one stream action by the Node Readable machinery: push of a
buffer clears the reading flag and, in non-object mode, delivers the chunk to
the consumer exactly when it is non-empty (Node drops zero-length chunks);
push(null) marks the stream ended; an error event is recorded and does not
clear the reading flag, which is why an errored ReadStream is never pulled
again. -/
def applyAct (s : RSState) (a : StreamAction) : RSState :=
  match a with
  | .push data =>
      { s with reading := false,
               chunks := s.chunks ++ if data.isEmpty then [] else [data] }
  | .pushNull => { s with ended := true }
  | .emitError e => { s with errors := s.errors ++ [e] }

/-- One scheduling step of the Node Readable machinery: _read(highWaterMark)
is invoked only when the stream is neither ended nor already reading; the
outcome parameter is the result of the remote read delivered to the _read
callback. -/
def rsStep (hwm : Nat) (outcome : Except String Unit) (s : RSState) : RSState :=
  if s.ended || s.reading then s
  else
    let r := ReadStream_read s.lo (hwm : Int) outcome
    let s1 := { s with
      reading := true, lo := r.lo,
      thrown := s.thrown ++ r.thrown.toList,
      reads := s.reads ++ r.handleReads }
    r.acts.foldl applyAct s1

/-- Iterated driver steps, one remote outcome per step. -/
def rsRun (hwm : Nat) (outcomes : List (Except String Unit)) (s : RSState) : RSState :=
  outcomes.foldl (fun s o => rsStep hwm o s) s

theorem rsStep_stuck (hwm : Nat) (o : Except String Unit) (s : RSState)
    (h : (s.ended || s.reading) = true) : rsStep hwm o s = s := by
  unfold rsStep
  rw [if_pos h]

theorem rsRun_stuck (hwm : Nat) (outcomes : List (Except String Unit)) (s : RSState)
    (h : (s.ended || s.reading) = true) : rsRun hwm outcomes s = s := by
  induction outcomes with
  | nil => rfl
  | cons o os ih =>
    show rsRun hwm os (rsStep hwm o s) = s
    rw [rsStep_stuck hwm o s h]
    exact ih

theorem rs_read_short (hwm : Nat) (lo : LoState)
    (hshort : (lo.content.drop lo.pos).length < hwm) :
    ReadStream_read lo (hwm : Int) (.ok ()) =
      ⟨none, [.push (lo.content.drop lo.pos), .pushNull], [hwm],
       ⟨lo.content, lo.pos + (lo.content.drop lo.pos).length⟩⟩ := by
  have hnle : ¬ ((hwm : Int) ≤ 0) := by omega
  have hdata : (lo.content.drop lo.pos).take hwm = lo.content.drop lo.pos :=
    List.take_of_length_le (Nat.le_of_lt hshort)
  unfold ReadStream_read
  rw [if_neg hnle]
  simp only [LargeObject.readAsync, loread, Int.toNat_natCast, hdata]
  rw [if_pos (by exact_mod_cast hshort)]
  rfl

theorem rsStep_short (hwm : Nat) (s : RSState)
    (hidle : (s.ended || s.reading) = false)
    (hshort : (s.lo.content.drop s.lo.pos).length < hwm) :
    rsStep hwm (.ok ()) s = { s with
      lo := ⟨s.lo.content, s.lo.pos + (s.lo.content.drop s.lo.pos).length⟩,
      reading := false, ended := true,
      chunks := s.chunks ++ (if (s.lo.content.drop s.lo.pos).isEmpty then []
                             else [s.lo.content.drop s.lo.pos]),
      reads := s.reads ++ [hwm] } := by
  unfold rsStep
  rw [if_neg (by simp [hidle])]
  rw [rs_read_short hwm s.lo hshort]
  simp [applyAct]

/-- C1: when the requested chunk size exceeds the number of bytes remaining
from the current position, the read returns exactly the remaining bytes and
the ReadStream delivers them as its terminal chunk (delivering no spurious
empty chunk, also when nothing remains) and then signals end-of-stream, after
which no further pulls occur, without any error event; end-of-stream is
signalled because the returned length is strictly below the requested chunk
size, even when the returned length is greater than 0. -/
theorem shortRead_terminal_chunk (hwm : Nat) (s : RSState)
    (hidle : (s.ended || s.reading) = false)
    (hshort : (s.lo.content.drop s.lo.pos).length < hwm) :
    (LargeObject.readAsync s.lo hwm).1 = s.lo.content.drop s.lo.pos
    ∧ (rsStep hwm (.ok ()) s).chunks
        = s.chunks ++ (if (s.lo.content.drop s.lo.pos).isEmpty then []
                       else [s.lo.content.drop s.lo.pos])
    ∧ (rsStep hwm (.ok ()) s).ended = true
    ∧ (rsStep hwm (.ok ()) s).errors = s.errors
    ∧ ∀ outcomes, rsRun hwm outcomes (rsStep hwm (.ok ()) s) = rsStep hwm (.ok ()) s := by
  have hstep := rsStep_short hwm s hidle hshort
  refine ⟨?_, by rw [hstep], by rw [hstep], by rw [hstep], ?_⟩
  · unfold LargeObject.readAsync loread
    simp [List.take_of_length_le (Nat.le_of_lt hshort)]
  · intro outcomes
    apply rsRun_stuck
    rw [hstep]
    rfl

theorem shortRead_terminal_chunk_witness :
    (LargeObject.readAsync (⟨[1, 2, 3], 1⟩ : LoState) 16384).1 = [2, 3]
    ∧ (rsStep 16384 (.ok ()) ⟨⟨[1, 2, 3], 1⟩, false, false, [], [], [], []⟩).chunks
        = [[2, 3]]
    ∧ (rsStep 16384 (.ok ()) ⟨⟨[1, 2, 3], 1⟩, false, false, [], [], [], []⟩).ended = true
    ∧ rsRun 16384 [.ok (), .error "x"]
        (rsStep 16384 (.ok ()) ⟨⟨[1, 2, 3], 1⟩, false, false, [], [], [], []⟩)
      = rsStep 16384 (.ok ()) ⟨⟨[1, 2, 3], 1⟩, false, false, [], [], [], []⟩ := by
  have h := shortRead_terminal_chunk 16384 ⟨⟨[1, 2, 3], 1⟩, false, false, [], [], [], []⟩
    (by decide) (by decide)
  exact ⟨h.1, by simpa using h.2.1, h.2.2.1, h.2.2.2.2 [.ok (), .error "x"]⟩

/-- C7: when the read issued by a pull fails, the ReadStream emits exactly one
error event, delivers no data for that pull, does not end the stream, leaves
the handle state untouched, and is never pulled again (every later driver
state is identical, so the consumer sees no further data, no further error
events, and no further reads on the handle). -/
theorem read_failure_errors_once (hwm : Nat) (e : String) (s : RSState)
    (hidle : (s.ended || s.reading) = false) (hpos : 0 < hwm) :
    (rsStep hwm (.error e) s).errors = s.errors ++ [e]
    ∧ (rsStep hwm (.error e) s).chunks = s.chunks
    ∧ (rsStep hwm (.error e) s).ended = false
    ∧ (rsStep hwm (.error e) s).reads = s.reads ++ [hwm]
    ∧ (rsStep hwm (.error e) s).lo = s.lo
    ∧ ∀ outcomes, rsRun hwm outcomes (rsStep hwm (.error e) s) = rsStep hwm (.error e) s := by
  have hr : ReadStream_read s.lo (hwm : Int) (.error e)
      = ⟨none, [.emitError e], [hwm], s.lo⟩ := by
    unfold ReadStream_read
    rw [if_neg (by omega)]
    rfl
  have hstep : rsStep hwm (.error e) s = { s with
      reading := true, errors := s.errors ++ [e], reads := s.reads ++ [hwm] } := by
    unfold rsStep
    rw [if_neg (by simp [hidle]), hr]
    simp [applyAct]
  have hended : s.ended = false := by
    have h2 := hidle
    simp at h2
    exact h2.1
  refine ⟨by rw [hstep], by rw [hstep], ?_, by rw [hstep], by rw [hstep], ?_⟩
  · rw [hstep]
    exact hended
  · intro outcomes
    apply rsRun_stuck
    rw [hstep]
    simp

theorem read_failure_errors_once_witness :
    (rsStep 16384 (.error "boom") ⟨⟨[1, 2, 3], 0⟩, false, false, [], [], [], []⟩).errors
      = ["boom"]
    ∧ (rsStep 16384 (.error "boom") ⟨⟨[1, 2, 3], 0⟩, false, false, [], [], [], []⟩).chunks
      = []
    ∧ rsRun 16384 [.ok ()]
        (rsStep 16384 (.error "boom") ⟨⟨[1, 2, 3], 0⟩, false, false, [], [], [], []⟩)
      = rsStep 16384 (.error "boom") ⟨⟨[1, 2, 3], 0⟩, false, false, [], [], [], []⟩ := by
  have h := read_failure_errors_once 16384 "boom"
    ⟨⟨[1, 2, 3], 0⟩, false, false, [], [], [], []⟩ (by decide) (by decide)
  exact ⟨by simpa using h.1, h.2.1, h.2.2.2.2.2 [.ok ()]⟩

/-- A value handed to WriteStream._write: either a Buffer of bytes or a
non-Buffer JavaScript value (summarised by a description string); the source
only distinguishes the two through Buffer.isBuffer. -/
inductive Chunk where
  | buffer (data : List Nat)
  | notBuffer (v : String)
deriving DecidableEq, Repr

/-- Result of one invocation of WriteStream._write: the value thrown
synchronously (if any), the write calls issued on the underlying LargeObject,
and the handle state afterwards. -/
structure WriteCallResult where
  thrown : Option Thrown
  handleWrites : List (List Nat)
  lo : LoState
deriving DecidableEq, Repr

/-- WriteStream._write (index.ts lines 42-47): a non-Buffer chunk throws the
bare string "Illegal Argument" before touching the handle; a Buffer chunk
issues exactly one write(chunk) on the owned LargeObject, and the stream
callback, which signals readiness for the next chunk, is handed directly to
write, so it fires exactly when that write resolves. -/
def WriteStream_write (lo : LoState) (chunk : Chunk) : WriteCallResult :=
  match chunk with
  | .notBuffer _ => ⟨some (.thrownString "Illegal Argument"), [], lo⟩
  | .buffer data => ⟨none, [data], LargeObject.writeAsync lo data⟩

/-- Observable state of a WriteStream driven by the Node Writable machinery:
the handle state, the trace of write calls issued on the handle (in order),
and the values thrown synchronously by _write. -/
structure WSState where
  lo : LoState
  handleWrites : List (List Nat)
  thrown : List Thrown
deriving DecidableEq, Repr

/-- One chunk accepted by the Node Writable machinery: _write is invoked, and
because _write passes the readiness callback straight to the handle write,
the machinery hands over the next chunk only after the previous write has
resolved, so chunks are processed strictly in sequence with at most one write
in flight at a time; the sequencing is modelled by this step function being
folded over the producer's chunks. -/
def wsStep (s : WSState) (c : Chunk) : WSState :=
  let r := WriteStream_write s.lo c
  { lo := r.lo, handleWrites := s.handleWrites ++ r.handleWrites,
    thrown := s.thrown ++ r.thrown.toList }

/-- Sequential processing of a producer's chunk sequence by the Writable
machinery. -/
def wsRun (s : WSState) (cs : List Chunk) : WSState :=
  cs.foldl wsStep s

theorem lowrite_append (st : LoState) (buf : List Nat) (h : st.pos = st.content.length) :
    lowrite st buf = ⟨st.content ++ buf, st.content.length + buf.length⟩ := by
  unfold lowrite
  rw [h]
  simp

theorem wsRun_buffers (ds : List (List Nat)) : ∀ s : WSState,
    wsRun s (ds.map Chunk.buffer) =
      ⟨ds.foldl LargeObject.writeAsync s.lo, s.handleWrites ++ ds, s.thrown⟩ := by
  induction ds with
  | nil => intro s; simp [wsRun]
  | cons d ds ih =>
    intro s
    show wsRun (wsStep s (Chunk.buffer d)) (ds.map Chunk.buffer) = _
    rw [ih]
    simp [wsStep, WriteStream_write]

theorem foldl_writeAsync_flatten (ds : List (List Nat)) : ∀ c : List Nat,
    ds.foldl LargeObject.writeAsync ⟨c, c.length⟩
      = ⟨c ++ ds.flatten, (c ++ ds.flatten).length⟩ := by
  induction ds with
  | nil => intro c; simp
  | cons d ds ih =>
    intro c
    show ds.foldl LargeObject.writeAsync (LargeObject.writeAsync ⟨c, c.length⟩ d) = _
    rw [show LargeObject.writeAsync ⟨c, c.length⟩ d = ⟨c ++ d, (c ++ d).length⟩ from by
      unfold LargeObject.writeAsync
      rw [lowrite_append ⟨c, c.length⟩ d rfl]
      simp]
    rw [ih (c ++ d)]
    simp

/-- C6: for every sequence of Buffer chunks accepted by the WriteStream, each
chunk issues exactly one write on the owned handle (the trace of handle
writes equals the chunk sequence, in the exact order produced, and nothing is
thrown); the machinery signals readiness for the next chunk only when the
previous write's callback fires, so at most one write is in flight at a time,
and writing onto a fresh object yields exactly the concatenation of the
chunks. -/
theorem writable_chunks_in_order (ds : List (List Nat)) (lo : LoState) :
    (wsRun ⟨lo, [], []⟩ (ds.map Chunk.buffer)).handleWrites = ds
    ∧ (wsRun ⟨lo, [], []⟩ (ds.map Chunk.buffer)).thrown = []
    ∧ (wsRun ⟨⟨[], 0⟩, [], []⟩ (ds.map Chunk.buffer)).lo.content = ds.flatten := by
  refine ⟨by rw [wsRun_buffers]; simp, by rw [wsRun_buffers], ?_⟩
  have hx := foldl_writeAsync_flatten ds []
  simp only [List.length_nil, List.nil_append] at hx
  rw [wsRun_buffers]
  simp [hx]

/-- C10: the adapters validate their input synchronously before touching the
handle: ReadStream._read with a requested length of at most 0 throws the bare
string "Illegal Argument" (a plain string, not an Error object) issuing no
read, and WriteStream._write on any non-Buffer chunk throws the same bare
string issuing no write; in both cases the handle state is untouched. -/
theorem adapter_illegal_argument_guard (lo : LoState) (length : Int)
    (outcome : Except String Unit) (v : String) (h : length ≤ 0) :
    ReadStream_read lo length outcome
      = ⟨some (.thrownString "Illegal Argument"), [], [], lo⟩
    ∧ WriteStream_write lo (.notBuffer v)
      = ⟨some (.thrownString "Illegal Argument"), [], lo⟩ := by
  constructor
  · unfold ReadStream_read
    rw [if_pos h]
  · rfl

theorem adapter_illegal_argument_guard_witness :
    ReadStream_read ⟨[9], 0⟩ 0 (.ok ())
      = ⟨some (.thrownString "Illegal Argument"), [], [], ⟨[9], 0⟩⟩
    ∧ WriteStream_write ⟨[9], 0⟩ (.notBuffer "a string")
      = ⟨some (.thrownString "Illegal Argument"), [], ⟨[9], 0⟩⟩ :=
  adapter_illegal_argument_guard ⟨[9], 0⟩ 0 (.ok ()) "a string" (by decide)

/-- One statement-shaped request issued to the remote engine; sizeQuery is the
single composite statement sent by LargeObject.sizeAsync. -/
inductive RemoteCall where
  | lo_open (oid : Nat) (mode : Nat)
  | lo_creat (mode : Nat)
  | lo_unlink (oid : Nat)
  | lo_close (fd : Nat)
  | sizeQuery (fd : Nat)
deriving DecidableEq, Repr

/-- A LargeObject handle as constructed by the manager: the object identifier
and the descriptor returned by lo_open (LargeObject.ts lines 39-43). -/
structure LargeObjectRec where
  oid : Nat
  fd : Nat
deriving DecidableEq, Repr

/-- LargeObjectManager.openAsync (LargeObjectManager.ts lines 45-51): a falsy
oid (for a JavaScript number: 0, or NaN which has no Nat counterpart) throws
an Error object before any remote call; otherwise exactly one lo_open call is
issued and a LargeObject wrapping the returned descriptor is produced.  The
first component lists the remote calls issued; the fd parameter stands for
the descriptor the remote engine returns. -/
def LargeObjectManager.openAsync (oid : Nat) (mode : Nat) (fd : Nat) :
    List RemoteCall × Except Thrown LargeObjectRec :=
  if oid = 0 then ([], .error (.errorObject "Illegal Argument"))
  else ([.lo_open oid mode], .ok ⟨oid, fd⟩)

/-- LargeObjectManager.unlinkAsync (LargeObjectManager.ts lines 94-100): the
same falsy guard, then exactly one lo_unlink call. -/
def LargeObjectManager.unlinkAsync (oid : Nat) :
    List RemoteCall × Except Thrown Unit :=
  if oid = 0 then ([], .error (.errorObject "Illegal Argument"))
  else ([.lo_unlink oid], .ok ())

/-- LargeObjectManager.createAsync (LargeObjectManager.ts lines 75-78): one
lo_creat call carrying the READWRITE bitmask; the newOid parameter stands for
the identifier the remote engine allocates. -/
def LargeObjectManager.createAsync (newOid : Nat) : List RemoteCall × Nat :=
  ([.lo_creat MODE.READWRITE], newOid)

/-- The ReadStream object constructed by getReadableStream: it owns the handle
and configures the Readable with highWaterMark bufferSize || 16384
(ReadStream.ts lines 6-12); 0 is the only falsy Nat. -/
structure ReadStreamRec where
  oid : Nat
  fd : Nat
  highWaterMark : Nat
deriving DecidableEq, Repr

/-- The WriteStream object constructed by getWritableStream (index.ts lines
32-40). -/
structure WriteStreamRec where
  oid : Nat
  fd : Nat
  highWaterMark : Nat
deriving DecidableEq, Repr

/-- LargeObject.getReadableStream (LargeObject.ts lines 197-199). -/
def LargeObject.getReadableStream (obj : LargeObjectRec) (bufferSize : Nat) :
    ReadStreamRec :=
  ⟨obj.oid, obj.fd, if bufferSize = 0 then 16384 else bufferSize⟩

/-- LargeObject.getWritableStream (LargeObject.ts lines 210-212). -/
def LargeObject.getWritableStream (obj : LargeObjectRec) (bufferSize : Nat) :
    WriteStreamRec :=
  ⟨obj.oid, obj.fd, if bufferSize = 0 then 16384 else bufferSize⟩

/-- A completion hook registered by a composite manager operation: on the
named terminal stream event, close the given descriptor. -/
inductive HookReg where
  | onEnd (fd : Nat)
  | onFinish (fd : Nat)
deriving DecidableEq, Repr

/-- Effects of one run of a registered close hook: the remote calls issued,
the warnings written to the console, and the error events injected into the
stream. -/
structure HookRun where
  calls : List RemoteCall
  consoleErrors : List String
  streamErrorEvents : List String
deriving DecidableEq, Repr

/-- Body of the completion hooks registered by the composite operations
(LargeObjectManager.ts lines 125-131 and 170-176): await closeAsync (one
lo_close call) inside try/catch; a close failure is caught and written to the
console, out of band, and never becomes a stream error event, so it is not
attributed to the (already settled) stream outcome.  closeOutcome is the
remote result of the lo_close call. -/
def runCloseHook (fd : Nat) (closeOutcome : Except String Unit) : HookRun :=
  match closeOutcome with
  | .ok _ => ⟨[.lo_close fd], [], []⟩
  | .error err =>
      ⟨[.lo_close fd], ["Warning: closing a large object failed: " ++ err], []⟩

/-- Result of openAndReadableStreamAsync: the remote calls issued, the queried
size, the constructed stream object and the registered completion hook. -/
structure OpenReadComposite where
  calls : List RemoteCall
  size : Nat
  stream : ReadStreamRec
  hook : HookReg
deriving DecidableEq, Repr

/-- LargeObjectManager.openAndReadableStreamAsync (LargeObjectManager.ts lines
118-133): open the object in READ mode, query its size (sizeAsync runs on the
freshly opened descriptor, whose position starts at 0), construct the
ReadStream over the handle, register the close-on-end hook, and return the
size together with the stream.  The content parameter is the object's byte
content and fd the descriptor the remote engine returns. -/
def LargeObjectManager.openAndReadableStreamAsync (oid : Nat) (content : List Nat)
    (fd : Nat) (bufferSize : Nat) : Except Thrown OpenReadComposite :=
  match LargeObjectManager.openAsync oid MODE.READ fd with
  | (_, .error t) => .error t
  | (calls, .ok obj) =>
    match LargeObject.sizeAsync ⟨content, 0⟩ with
    | .error t => .error t
    | .ok (size, _) =>
      .ok ⟨calls ++ [.sizeQuery obj.fd], size,
           LargeObject.getReadableStream obj bufferSize, .onEnd obj.fd⟩

/-- Result of createAndWritableStreamAsync: the remote calls issued, the new
identifier, the constructed stream object and the registered completion
hook. -/
structure CreateWriteComposite where
  calls : List RemoteCall
  oid : Nat
  stream : WriteStreamRec
  hook : HookReg
deriving DecidableEq, Repr

/-- LargeObjectManager.createAndWritableStreamAsync (LargeObjectManager.ts
lines 166-178): create a new object (one lo_creat call with the READWRITE
capability), open it in WRITE mode, construct the WriteStream over the
handle, register the close-on-finish hook, and return the new identifier
together with the stream. -/
def LargeObjectManager.createAndWritableStreamAsync (newOid : Nat) (fd : Nat)
    (bufferSize : Nat) : Except Thrown CreateWriteComposite :=
  let (calls1, oid) := LargeObjectManager.createAsync newOid
  match LargeObjectManager.openAsync oid MODE.WRITE fd with
  | (_, .error t) => .error t
  | (calls2, .ok obj) =>
    .ok ⟨calls1 ++ calls2, oid,
         LargeObject.getWritableStream obj bufferSize, .onFinish obj.fd⟩

/-- C3: a falsy oid (0 is the only falsy Nat) makes openAsync and unlinkAsync
throw an argument error, an Error object, with no remote call issued; any
truthy oid issues exactly one remote call and succeeds. -/
theorem open_unlink_falsy_guard (oid : Nat) (mode : Nat) (fd : Nat) :
    (oid = 0 →
      LargeObjectManager.openAsync oid mode fd
        = ([], .error (.errorObject "Illegal Argument"))
      ∧ LargeObjectManager.unlinkAsync oid
        = ([], .error (.errorObject "Illegal Argument")))
    ∧ (oid ≠ 0 →
      (LargeObjectManager.openAsync oid mode fd).1 = [.lo_open oid mode]
      ∧ (LargeObjectManager.openAsync oid mode fd).2 = .ok ⟨oid, fd⟩
      ∧ (LargeObjectManager.unlinkAsync oid).1 = [.lo_unlink oid]
      ∧ (LargeObjectManager.unlinkAsync oid).2 = .ok ()) := by
  constructor
  · intro h
    subst h
    exact ⟨rfl, rfl⟩
  · intro h
    unfold LargeObjectManager.openAsync LargeObjectManager.unlinkAsync
    rw [if_neg h, if_neg h]
    exact ⟨rfl, rfl, rfl, rfl⟩

theorem open_unlink_falsy_guard_witness :
    (LargeObjectManager.openAsync 0 MODE.READ 5
        = ([], .error (.errorObject "Illegal Argument"))
      ∧ LargeObjectManager.unlinkAsync 0
        = ([], .error (.errorObject "Illegal Argument")))
    ∧ ((LargeObjectManager.openAsync 7 MODE.READ 5).1 = [.lo_open 7 MODE.READ]
      ∧ (LargeObjectManager.unlinkAsync 7).1 = [.lo_unlink 7]) :=
  ⟨(open_unlink_falsy_guard 0 MODE.READ 5).1 rfl,
   ((open_unlink_falsy_guard 7 MODE.READ 5).2 (by decide)).1,
   ((open_unlink_falsy_guard 7 MODE.READ 5).2 (by decide)).2.2.1⟩

/-- C4: for a valid oid, openAndReadableStreamAsync issues exactly an open in
READ mode followed by the size query, returns the queried size (the object's
length, through the unary-plus coercion) together with the ReadStream built
over the opened handle, and registers a hook on the stream's end event that
closes that handle; a failing automatic close produces a console warning (the
out-of-band channel) and never a stream error event, while a successful one
just issues the lo_close call. -/
theorem openAndReadableStream_composite (oid : Nat) (content : List Nat)
    (fd : Nat) (bufferSize : Nat) (h : oid ≠ 0) :
    LargeObjectManager.openAndReadableStreamAsync oid content fd bufferSize
      = .ok ⟨[.lo_open oid MODE.READ, .sizeQuery fd], fl64 content.length,
             ⟨oid, fd, if bufferSize = 0 then 16384 else bufferSize⟩, .onEnd fd⟩
    ∧ runCloseHook fd (.ok ()) = ⟨[.lo_close fd], [], []⟩
    ∧ (∀ e, (runCloseHook fd (.error e)).streamErrorEvents = []
        ∧ (runCloseHook fd (.error e)).consoleErrors
            = ["Warning: closing a large object failed: " ++ e]
        ∧ (runCloseHook fd (.error e)).calls = [.lo_close fd]) := by
  refine ⟨?_, rfl, fun e => ⟨rfl, rfl, rfl⟩⟩
  unfold LargeObjectManager.openAndReadableStreamAsync LargeObjectManager.openAsync
  rw [if_neg h]
  rw [show LargeObject.sizeAsync ⟨content, 0⟩ = .ok (fl64 content.length, ⟨content, 0⟩)
      from sizeAsync_eq ⟨content, 0⟩]
  rfl

theorem openAndReadableStream_composite_witness :
    LargeObjectManager.openAndReadableStreamAsync 7 [1, 2, 3] 5 16384
      = .ok ⟨[.lo_open 7 MODE.READ, .sizeQuery 5], 3, ⟨7, 5, 16384⟩, .onEnd 5⟩
    ∧ (runCloseHook 5 (.error "late")).streamErrorEvents = [] := by
  have h := openAndReadableStream_composite 7 [1, 2, 3] 5 16384 (by decide)
  exact ⟨by rw [h.1]; rfl, (h.2.2 "late").1⟩

/-- C5: createAndWritableStreamAsync issues exactly a create carrying the
READWRITE capability followed by an open of the new identifier in WRITE mode,
returns the new identifier together with the WriteStream built over the
opened handle, and registers a hook on the stream's finish event (the
finished-accepting-input state) that closes that handle; the hook issues the
lo_close call when run. -/
theorem createAndWritableStream_composite (newOid : Nat) (fd : Nat)
    (bufferSize : Nat) (h : newOid ≠ 0) :
    LargeObjectManager.createAndWritableStreamAsync newOid fd bufferSize
      = .ok ⟨[.lo_creat MODE.READWRITE, .lo_open newOid MODE.WRITE], newOid,
             ⟨newOid, fd, if bufferSize = 0 then 16384 else bufferSize⟩,
             .onFinish fd⟩
    ∧ runCloseHook fd (.ok ()) = ⟨[.lo_close fd], [], []⟩
    ∧ (∀ e, (runCloseHook fd (.error e)).streamErrorEvents = []
        ∧ (runCloseHook fd (.error e)).consoleErrors
            = ["Warning: closing a large object failed: " ++ e]) := by
  refine ⟨?_, rfl, fun e => ⟨rfl, rfl⟩⟩
  unfold LargeObjectManager.createAndWritableStreamAsync
  unfold LargeObjectManager.createAsync LargeObjectManager.openAsync
  simp only [if_neg h]
  rfl

theorem createAndWritableStream_composite_witness :
    LargeObjectManager.createAndWritableStreamAsync 9 4 0
      = .ok ⟨[.lo_creat MODE.READWRITE, .lo_open 9 MODE.WRITE], 9,
             ⟨9, 4, 16384⟩, .onFinish 4⟩
    ∧ runCloseHook 4 (.ok ()) = ⟨[.lo_close 4], [], []⟩ := by
  have h := createAndWritableStream_composite 9 4 0 (by decide)
  exact ⟨by rw [h.1]; rfl, h.2.1⟩
